import Mathlib

/-!
Verification development for the alarm-clock firmware core.

The Rust source is shallowly embedded: every RefCell / atomic cell becomes an
explicit state field, machine integers become Nat with explicit wrapping where
the source wraps, and each driver operation returns an outcome — ok with the
successor state, or panicked with the machine state at the moment the program
dies — together with the trace of electrical events (serial shift timing
sequences and latch pulses) emitted up to that point. RefCell dynamic-borrow
failures are panics and are modelled as such: in shift_register.rs the
statement current_shifted_bit.replace(*current_shifted_bit.borrow() + 1)
(lines 136-137) panics with BorrowMutError on every call, because the Ref
guard created in the argument is a statement-scoped temporary that is still
alive when replace calls borrow_mut; update_idx additionally holds
bit_array.borrow() across its whole re-shift loop (lines 212-214) while
latch() calls bit_array.borrow_mut() (line 159). The physical TPIC6595 chain
is modelled by two extra fields: chain is the internal serial shift chain
(head = most recently shifted bit) and outputs is the bit vector currently
asserted on the output drains (updated only by a latch pulse).
-/

/-- One observable bus event of the shift-register protocol: a full serial
shift timing sequence carrying one bit, or a latch pulse. -/
inductive Ev where
  | shift (b : Bool)
  | latchPulse
deriving DecidableEq

/-- State of a ShiftRegister of width N, from shift_register.rs, plus the
modelled hardware chain and latched outputs. -/
structure ShiftRegister (N : Nat) where
  bit_array : List Bool
  current_shifted_bit : Nat
  is_latched : Bool
  chain : List Bool
  outputs : List Bool
deriving DecidableEq

/-- ShiftRegister::new: all-LOW image, counter 0, not latched. The physical
chain and outputs are whatever the hardware held at power-up (the TPIC6595
internal register is undefined at power-on). -/
def ShiftRegister.new (N : Nat) (chain0 outputs0 : List Bool) : ShiftRegister N :=
  { bit_array := List.replicate N false
    current_shifted_bit := 0
    is_latched := false
    chain := chain0
    outputs := outputs0 }

/-- Outcome of a driver operation: ok with the successor state, or panicked
with the state held at the moment the program dies (a panic halts the
firmware; nothing runs afterwards). -/
inductive OpResult (N : Nat) where
  | ok (s : ShiftRegister N)
  | panicked (s : ShiftRegister N)
deriving DecidableEq

/-- Whether the operation died in a panic. -/
def OpResult.isPanic {N : Nat} : OpResult N → Bool
  | .ok _ => false
  | .panicked _ => true

/-- The machine state carried by the outcome (successor state when ok, state
at death when panicked). -/
def OpResult.stateOf {N : Nat} : OpResult N → ShiftRegister N
  | .ok s => s
  | .panicked s => s

/-- ShiftRegister::latch: sets is_latched, pulses the latch line (copying the
hardware chain onto the output drains), clears bit_array to all-LOW and
resets the shift counter, exactly as the source does. A direct call performs
no conflicting borrows and completes. -/
def ShiftRegister.latch (N : Nat) (s : ShiftRegister N) : ShiftRegister N × List Ev :=
  ({ bit_array := List.replicate N false
     current_shifted_bit := 0
     is_latched := true
     chain := s.chain
     outputs := s.chain }, [Ev.latchPulse])

/-- ShiftRegister::shift_out: the serial-in rise, clock pulse and serial-in
fall (shift_register.rs:116-133) all complete, so one timing sequence is
emitted and the bit enters the hardware chain; then
current_shifted_bit.replace(*current_shifted_bit.borrow() + 1) (lines
136-137) panics with BorrowMutError — the Ref temporary created in the
argument lives to the end of the statement and is still held when replace
calls borrow_mut. The counter increment, the latch-at-N check and the
update_bit_array block (lines 138-148) are unreachable, so the
update_bit_array flag is never consulted. -/
def ShiftRegister.shift_out (N : Nat) (state : Bool) (update_bit_array : Bool)
    (s : ShiftRegister N) : OpResult N × List Ev :=
  (OpResult.panicked { s with chain := (state :: s.chain).take N },
   [Ev.shift state])

/-- Sequencing of the bulk-write loops: shift out a list of bits in order
with update_bit_array = false, stopping at the first panic and concatenating
the emitted traces. -/
def shiftOutSeq (N : Nat) : List Bool → ShiftRegister N → OpResult N × List Ev
  | [], s => (OpResult.ok s, [])
  | b :: rest, s =>
    match ShiftRegister.shift_out N b false s with
    | (OpResult.ok s1, evs) =>
      let r := shiftOutSeq N rest s1
      (r.1, evs ++ r.2)
    | (OpResult.panicked s1, evs) => (OpResult.panicked s1, evs)

/-- ShiftRegister::set_bit_array: shift the array out in reverse order, then
store it as the new authoritative image. The store (line 176) runs only if
the loop completes; for a non-empty array the first shift_out dies, so one
timing sequence is emitted and the image is never stored. -/
def ShiftRegister.set_bit_array (N : Nat) (bit_array : List Bool)
    (s : ShiftRegister N) : OpResult N × List Ev :=
  match shiftOutSeq N bit_array.reverse s with
  | (OpResult.ok s1, evs) => (OpResult.ok { s1 with bit_array := bit_array }, evs)
  | (OpResult.panicked s1, evs) => (OpResult.panicked s1, evs)

/-- ShiftRegisterInternal::update_idx: the index write (line 209, a panic if
the index is out of bounds) and the stash-and-zero of the shift counter
(line 210, whose replace argument is a literal and borrows nothing) both
complete; then the re-shift loop's first shift_out dies at the counter
replace. Were that statement sound, the loop would still die at the Nth
iteration: it holds bit_array.borrow() for its whole duration (lines 212-214)
while the embedded latch() calls bit_array.borrow_mut() (line 159). The
counter restore and the is_latched store after the loop (lines 216-217) are
unreachable. -/
def ShiftRegister.update_idx (N : Nat) (pin_idx : Nat) (pin_state : Bool)
    (s : ShiftRegister N) : OpResult N × List Ev :=
  if pin_idx < s.bit_array.length then
    let arr := s.bit_array.set pin_idx pin_state
    let old_shifted_bit := s.current_shifted_bit
    match shiftOutSeq N arr.reverse
        { s with bit_array := arr, current_shifted_bit := 0 } with
    | (OpResult.ok s1, evs) =>
      (OpResult.ok { s1 with current_shifted_bit := old_shifted_bit
                             is_latched := false }, evs)
    | (OpResult.panicked s1, evs) => (OpResult.panicked s1, evs)
  else (OpResult.panicked s, [])

/-- FakePin::set_high for the decomposed single-bit adapter at index idx:
delegates to update_idx with a high level. -/
def FakePin.set_high (N : Nat) (idx : Nat) (s : ShiftRegister N) :
    OpResult N × List Ev :=
  ShiftRegister.update_idx N idx true s

/-! Millisecond clock, from interrupts.rs. -/

def PRESCALER : Nat := 1024

def TIMER_COUNTS : Nat := 125

/-- Per-tick increment of the millisecond counter; the Uno runs at 16 MHz. -/
def MILLIS_INCREMENT : Nat := PRESCALER * TIMER_COUNTS / 16000

/-- TIMER0_COMPA interrupt body: add the increment to the u32 counter,
wrapping modulo 2^32. -/
def timer0CompA (counter : Nat) : Nat := (counter + MILLIS_INCREMENT) % 2 ^ 32

/-- millis(): read the counter inside a critical section. -/
def millis (counter : Nat) : Nat := counter

/-- Counter value after millis_init (which resets it to zero) followed by k
timer-interrupt firings. -/
def millisAfterInit (k : Nat) : Nat := timer0CompA^[k] 0

/-! Sticky changed flag and debounce layer, from interrupts.rs and
rotary_encoder.rs. -/

/-- changed_state: returns (result, new flag value): true and clears the flag
iff it was set, false leaving it untouched otherwise. -/
def changed_state (flag : Bool) : Bool × Bool :=
  if flag then (true, false) else (false, flag)

/-- Captured raw levels of the rotary encoder, from interrupts.rs. -/
structure RotaryEncoderState where
  a : Bool
  b : Bool
  button : Bool
deriving DecidableEq

/-- Debounce-layer state of the rotary encoder (the physical pins are
omitted; only state and changed carry behaviour). -/
structure RotaryEncoder where
  state : RotaryEncoderState
  changed : Bool
deriving DecidableEq

/-- RotaryEncoder::update: snapshot the captured levels, consume the global
changed flag, and report a change only when the levels actually differ from
the previous poll; returns the updated encoder and the new global flag. -/
def RotaryEncoder.update (e : RotaryEncoder) (snapshot : RotaryEncoderState)
    (changed_flag : Bool) : RotaryEncoder × Bool :=
  let r := changed_state changed_flag
  ({ state := snapshot
     changed := r.1 && ((e.state.a != snapshot.a) || (e.state.b != snapshot.b)
       || (e.state.button != snapshot.button)) }, r.2)

/-- RotaryEncoder::rotated_clockwise: single-shot query, true when a change
was recorded and the A and B levels differ; always clears the changed flag. -/
def RotaryEncoder.rotated_clockwise (e : RotaryEncoder) : RotaryEncoder × Bool :=
  ({ e with changed := false }, e.changed && (e.state.a != e.state.b))

/-! Time digits and the multiplexed hours:minutes renderer, from shared.rs
and time_display.rs. -/

/-- TimeDigits: tens and ones digits of hours, minutes and seconds (u8). -/
structure TimeDigits where
  hours : Nat × Nat
  minutes : Nat × Nat
  seconds : Nat × Nat
deriving DecidableEq

/-- TimeDigits::default. -/
def TimeDigits.mkDefault : TimeDigits :=
  { hours := (0, 0), minutes := (0, 0), seconds := (0, 0) }

/-- DigitSelect: which of the five multiplexed positions is lit. -/
inductive DigitSelect where
  | DP
  | Hour1
  | Hour2
  | Minute1
  | Minute2
deriving DecidableEq, Fintype

/-- The repr(u8) discriminant of each DigitSelect variant. -/
def DigitSelect.toBits : DigitSelect → Nat
  | .DP => 1
  | .Hour1 => 2
  | .Hour2 => 4
  | .Minute1 => 8
  | .Minute2 => 16

/-- Partial inverse of toBits; the transmute in the source assumes the value
is a valid discriminant, modelled here by returning none otherwise. -/
def DigitSelect.ofBits : Nat → Option DigitSelect
  | 1 => some .DP
  | 2 => some .Hour1
  | 4 => some .Hour2
  | 8 => some .Minute1
  | 16 => some .Minute2
  | _ => none

/-- The 5-bit rotate-right used to pick the next multiplexed digit:
new = (d >> 1) | ((d << 4) & 0b11111) in u8 arithmetic
(time_display.rs:183-184). -/
def nextDigitBits (d : Nat) : Nat :=
  (d >>> 1) ||| (((d <<< 4) % 256) &&& 0b11111)

/-- SEVEN_SEGMENT_OUTPUT: A-G segment states for digits 0x0-0xF plus a final
all-off row, transcribed from time_display.rs. -/
def SEVEN_SEGMENT_OUTPUT : List (List Bool) :=
  [ [true, true, true, true, true, true, false],
    [false, true, true, false, false, false, false],
    [true, true, false, true, true, false, true],
    [true, true, true, true, false, false, true],
    [false, true, true, false, false, true, true],
    [true, false, true, true, false, true, true],
    [true, false, true, true, true, true, true],
    [true, true, true, false, false, false, false],
    [true, true, true, true, true, true, true],
    [true, true, true, true, false, true, true],
    [true, true, true, false, true, true, true],
    [true, true, true, true, true, true, true],
    [true, false, false, true, true, true, false],
    [true, true, true, true, true, true, false],
    [true, false, false, true, true, true, true],
    [true, false, false, false, true, true, true],
    [false, false, false, false, false, false, false] ]

/-- HoursMinutes renderer state: its own 16-lane shift register, the
currently selected digit, and the last successfully read digits. -/
structure HoursMinutes where
  shift_register : ShiftRegister 16
  selected_digit : DigitSelect
  last_digit : TimeDigits
deriving DecidableEq

/-- Outcome of a display call: ok with the successor renderer state and the
pin states pushed out, or panicked with the renderer state at death. -/
inductive RenderResult where
  | ok (hm : HoursMinutes) (pin_states : List Bool)
  | panicked (hm : HoursMinutes)
deriving DecidableEq

/-- Whether the display call died in a panic. -/
def RenderResult.isPanic : RenderResult → Bool
  | .ok _ _ => false
  | .panicked _ => true

/-- The renderer state carried by the outcome. -/
def RenderResult.stateOf : RenderResult → HoursMinutes
  | .ok hm _ => hm
  | .panicked hm => hm

/-- HoursMinutes::display. The cell argument models the shared DIGITS cell:
none when try_borrow fails (the cell is locked), some digits otherwise. In a
non-DP state the digits are read from the cell with fallback to last_digit,
the digit value is computed, and last_digit is updated (time_display.rs:
147-148) before the glyph table is indexed (line 150, a panic when the digit
exceeds the table, modelled as a panicked outcome). The source then calls
set_bit_array with the 16 assembled pin states (line 178; the call site
passes one argument although shift_register.rs declares two — the embedding
passes the register state explicitly and drops the absent critical-section
token), which dies in shift_out's BorrowMutError after emitting a single
timing sequence, so the selected_digit rotation and transmute (lines 183-185)
are unreachable. -/
def HoursMinutes.display (cell : Option TimeDigits) (hm : HoursMinutes) :
    RenderResult × List Ev :=
  let bitwise_digit := hm.selected_digit.toBits
  let sel0 := (bitwise_digit &&& 1) != 0
  let sel1 := (bitwise_digit &&& 2) != 0
  let sel2 := (bitwise_digit &&& 4) != 0
  let sel3 := (bitwise_digit &&& 8) != 0
  let sel4 := (bitwise_digit &&& 16) != 0
  let dp_pin_states : List Bool :=
    match hm.selected_digit with
    | .DP => [false, false, true, false]
    | _ => [false, false, false, false]
  let seg_and_last : Option (List Bool) × TimeDigits :=
    match hm.selected_digit with
    | .DP => (some (List.replicate 7 false), hm.last_digit)
    | _ =>
      let hrs_mins : (Nat × Nat) × (Nat × Nat) :=
        match cell with
        | some digits => (digits.hours, digits.minutes)
        | none => (hm.last_digit.hours, hm.last_digit.minutes)
      let hours := hrs_mins.1
      let minutes := hrs_mins.2
      let digit : Nat :=
        (hours.1 * ((bitwise_digit >>> 1) &&& 1)
          + hours.2 * ((bitwise_digit >>> 2) &&& 1)
          + minutes.1 * ((bitwise_digit >>> 3) &&& 1)
          + minutes.2 * ((bitwise_digit >>> 4) &&& 1)) % 256
      (SEVEN_SEGMENT_OUTPUT[digit]?,
       { hours := hours, minutes := minutes, seconds := hm.last_digit.seconds })
  match seg_and_last with
  | (none, new_last) =>
    (RenderResult.panicked { hm with last_digit := new_last }, [])
  | (some seg, new_last) =>
    let pin_states : List Bool :=
      [ !sel0, !sel1, !sel2, !sel3, !sel4,
        dp_pin_states.getD 0 false, dp_pin_states.getD 1 false,
        dp_pin_states.getD 2 false, dp_pin_states.getD 3 false,
        seg.getD 5 false, seg.getD 6 false, seg.getD 0 false,
        seg.getD 1 false, seg.getD 2 false, seg.getD 3 false,
        seg.getD 4 false ]
    match ShiftRegister.set_bit_array 16 pin_states hm.shift_register with
    | (OpResult.panicked sr1, evs) =>
      (RenderResult.panicked
        { hm with shift_register := sr1, last_digit := new_last }, evs)
    | (OpResult.ok sr1, evs) =>
      match DigitSelect.ofBits (nextDigitBits bitwise_digit) with
      | some next =>
        (RenderResult.ok
          { shift_register := sr1, selected_digit := next
            last_digit := new_last } pin_states, evs)
      | none =>
        (RenderResult.panicked
          { hm with shift_register := sr1, last_digit := new_last }, evs)

/-- A renderer with a fresh shift register and default last digits, selecting
the given digit. -/
def mkHoursMinutes (sel : DigitSelect) : HoursMinutes :=
  { shift_register :=
      ShiftRegister.new 16 (List.replicate 16 false) (List.replicate 16 false)
    selected_digit := sel
    last_digit := TimeDigits.mkDefault }

/-! BCD codec, from rtc.rs. -/

/-- bcd_decode: high nibble times ten plus low nibble (stays below 256, so
the u8 arithmetic never wraps). -/
def bcd_decode (x : Nat) : Nat :=
  ((x &&& 0b11110000) >>> 4) * 10 + (x &&& 0b00001111)

/-- The while loop of bcd_encode: peel decimal digits off x, or-ing each into
res at nibble position shift. The loop variable strictly decreases through
x / 10, so fuel = x bounds the iteration count; structural recursion on the
fuel keeps the definition kernel-reducible. -/
def bcd_encode_go (fuel x shift res : Nat) : Nat :=
  match fuel with
  | 0 => res
  | fuel + 1 =>
    if x = 0 then res
    else bcd_encode_go fuel (x / 10) (shift + 1) (res ||| ((x % 10) <<< (shift <<< 2)))

/-- bcd_encode: the assert rejecting inputs of 100 or more is modelled by
returning none (a panic); otherwise the loop result. -/
def bcd_encode (x : Nat) : Option Nat :=
  if x < 100 then some (bcd_encode_go x x 0 0) else none

/-! Claim theorems. -/

/-- C1: the claim says set_bit_array on an 8-lane driver with shift counter 0
emits 8 shift timing sequences and one latch pulse and stores the image; the
code instead emits exactly one timing sequence (carrying vs[7]) and then
panics with BorrowMutError at the counter increment inside the first
shift_out, never latching and never storing the image. Evaluated here at a
concrete failing input. -/
theorem C1_set_bit_array_panics :
    (ShiftRegister.set_bit_array 8 [true, false, true, false, false, true, true, false]
        (ShiftRegister.new 8 (List.replicate 8 false) (List.replicate 8 false))).2
      = [Ev.shift false]
    ∧ (ShiftRegister.set_bit_array 8 [true, false, true, false, false, true, true, false]
        (ShiftRegister.new 8 (List.replicate 8 false) (List.replicate 8 false))).1.isPanic
      = true
    ∧ (ShiftRegister.set_bit_array 8 [true, false, true, false, false, true, true, false]
        (ShiftRegister.new 8 (List.replicate 8 false) (List.replicate 8 false))).1.stateOf.bit_array
      = List.replicate 8 false := by
  decide

/-- C2: the claim says FakePin::set_high at index 3 re-shifts the whole 8-bit
array and latches once; the code completes the index write and the
counter stash-and-zero, then dies in the first shift_out of the re-shift loop
(after emitting one timing sequence carrying bit 7 of the updated image),
with a second latent BorrowMutError waiting in latch() against the loop's
held borrow. Evaluated here at a concrete failing input: the full outcome is
a panic whose state shows the updated image and zeroed counter, with a
one-event trace and no latch pulse. -/
theorem C2_update_idx_panics :
    FakePin.set_high 8 3
        (ShiftRegister.new 8 (List.replicate 8 false) (List.replicate 8 false))
      = (OpResult.panicked
          { bit_array := [false, false, false, true, false, false, false, false]
            current_shifted_bit := 0
            is_latched := false
            chain := List.replicate 8 false
            outputs := List.replicate 8 false },
         [Ev.shift false]) := by
  decide

/-- C3: after millis_init resets the counter, the value millis() returns
after any number k of timer-interrupt firings equals k times the fixed
per-tick increment MILLIS_INCREMENT = PRESCALER * TIMER_COUNTS / 16000,
modulo 2^32; and a counter sitting at 2^32 - MILLIS_INCREMENT wraps to 0 on
the next tick. -/
theorem C3_millis_counts_ticks :
    (∀ k : Nat, millis (millisAfterInit k) = k * MILLIS_INCREMENT % 2 ^ 32)
    ∧ timer0CompA (2 ^ 32 - MILLIS_INCREMENT) = 0 := by
  constructor
  · intro k
    induction k with
    | zero => simp [millisAfterInit, millis]
    | succ n ih =>
      have hstep : millisAfterInit (n + 1) = timer0CompA (millisAfterInit n) :=
        Function.iterate_succ_apply' timer0CompA n 0
      rw [millis] at ih ⊢
      rw [hstep, ih, timer0CompA, Nat.mod_add_mod, Nat.succ_mul]
  · have hinc : MILLIS_INCREMENT = 8 := by
      norm_num [MILLIS_INCREMENT, PRESCALER, TIMER_COUNTS]
    rw [timer0CompA, hinc, Nat.sub_add_cancel (by norm_num), Nat.mod_self]

/-- C4: the claim says is_latched = true always means the stored bit_array
equals the bit vector latched on the physical outputs; but latch() itself
(the one listed operation that runs to completion) sets is_latched and clears
bit_array to all-LOW while its pulse copies the hardware chain to the
outputs, so a single latch call on a fresh driver whose chain powered up
non-LOW leaves is_latched = true with bit_array differing from the outputs —
and the other listed operations (shift_out, set_bit_array, update_idx) never
complete at all. Evaluated here at the concrete failing input. -/
theorem C4_latch_mislabels_cleared_image :
    (ShiftRegister.latch 8
        (ShiftRegister.new 8 (List.replicate 8 true)
          (List.replicate 8 false))).1.is_latched = true
    ∧ (ShiftRegister.latch 8
        (ShiftRegister.new 8 (List.replicate 8 true)
          (List.replicate 8 false))).1.bit_array
      ≠ (ShiftRegister.latch 8
        (ShiftRegister.new 8 (List.replicate 8 true)
          (List.replicate 8 false))).1.outputs := by
  decide

/-- C5: from previous levels all zero and a captured snapshot with A high,
B low, button low, while the global changed flag is set, update() followed by
rotated_clockwise() yields true on the first query and false on a second
query in the same iteration, for either initial value of the single-shot
flag. -/
theorem C5_rotated_clockwise_single_shot :
    ∀ c : Bool,
      (RotaryEncoder.rotated_clockwise
        (RotaryEncoder.update ⟨⟨false, false, false⟩, c⟩
          ⟨true, false, false⟩ true).1).2 = true
      ∧ (RotaryEncoder.rotated_clockwise
          (RotaryEncoder.rotated_clockwise
            (RotaryEncoder.update ⟨⟨false, false, false⟩, c⟩
              ⟨true, false, false⟩ true).1).1).2 = false := by
  decide

/-- C6: when the sticky changed flag is set, two consecutive changed_state
calls with no intervening interrupt return true then false; when it is
clear, changed_state returns false and leaves the flag clear. -/
theorem C6_changed_state_consume_once :
    (changed_state true).1 = true
    ∧ (changed_state (changed_state true).2).1 = false
    ∧ (changed_state false).1 = false
    ∧ (changed_state false).2 = false := by
  decide

/-- C7: the claim says five consecutive display calls cycle selected_digit
through all five states; but every display call dies inside set_bit_array
(shift_out's BorrowMutError) before the rotation at time_display.rs:183-185
runs, so from every starting digit the first call already panics with
selected_digit unchanged and no second call ever happens. -/
theorem C7_display_never_advances :
    ∀ sel : DigitSelect,
      (HoursMinutes.display none (mkHoursMinutes sel)).1.isPanic = true
      ∧ (HoursMinutes.display none
          (mkHoursMinutes sel)).1.stateOf.selected_digit = sel := by
  decide

set_option maxRecDepth 4096 in
/-- C8: for every byte whose two nibbles are each at most 9 (valid packed
BCD), bcd_encode inverts bcd_decode; for inputs 0 to 99 bcd_encode produces
the packed-BCD byte; and for inputs of 100 or more the assertion fires,
modelled as none. -/
theorem C8_bcd_round_trip :
    (∀ x < 256, (x &&& 0b11110000) >>> 4 ≤ 9 → x &&& 0b00001111 ≤ 9 →
      bcd_encode (bcd_decode x) = some x)
    ∧ (∀ y < 100, bcd_encode y = some (y / 10 * 16 + y % 10))
    ∧ (∀ y : Nat, 100 ≤ y → bcd_encode y = none) := by
  refine ⟨by decide, by decide, ?_⟩
  intro y hy
  rw [bcd_encode, if_neg (by omega)]

theorem C8_witness :
    bcd_encode (bcd_decode 0x42) = some 0x42
    ∧ bcd_encode 59 = some (59 / 10 * 16 + 59 % 10)
    ∧ bcd_encode 123 = none :=
  ⟨C8_bcd_round_trip.1 0x42 (by decide) (by decide) (by decide),
    C8_bcd_round_trip.2.1 59 (by decide),
    C8_bcd_round_trip.2.2 123 (by decide)⟩

/-- C9: the claim says a non-DP display call with the DIGITS cell locked
neither blocks nor panics, falling back to last_digit, and with the cell free
reads and stores the current digits; the code does perform the try-read
fallback and the last_digit update, but then every display call panics inside
set_bit_array (shift_out's BorrowMutError), locked or not. Evaluated here at
a concrete non-DP renderer: both the locked and the free call die in a panic,
whose state at death still shows the fallback (last_digit unchanged) and the
update (last_digit's hours and minutes taken from the free cell). -/
theorem C9_display_panics_despite_fallback :
    (HoursMinutes.display none
        { shift_register := ShiftRegister.new 16 (List.replicate 16 false) (List.replicate 16 false)
          selected_digit := DigitSelect.Minute1
          last_digit := { hours := (1, 2), minutes := (3, 4), seconds := (5, 6) } }).1.isPanic
      = true
    ∧ (HoursMinutes.display none
        { shift_register := ShiftRegister.new 16 (List.replicate 16 false) (List.replicate 16 false)
          selected_digit := DigitSelect.Minute1
          last_digit := { hours := (1, 2), minutes := (3, 4), seconds := (5, 6) } }).1.stateOf.last_digit
      = { hours := (1, 2), minutes := (3, 4), seconds := (5, 6) }
    ∧ (HoursMinutes.display
        (some { hours := (0, 7), minutes := (5, 9), seconds := (0, 0) })
        { shift_register := ShiftRegister.new 16 (List.replicate 16 false) (List.replicate 16 false)
          selected_digit := DigitSelect.Minute1
          last_digit := { hours := (1, 2), minutes := (3, 4), seconds := (5, 6) } }).1.isPanic
      = true
    ∧ (HoursMinutes.display
        (some { hours := (0, 7), minutes := (5, 9), seconds := (0, 0) })
        { shift_register := ShiftRegister.new 16 (List.replicate 16 false) (List.replicate 16 false)
          selected_digit := DigitSelect.Minute1
          last_digit := { hours := (1, 2), minutes := (3, 4), seconds := (5, 6) } }).1.stateOf.last_digit
      = { hours := (0, 7), minutes := (5, 9), seconds := (5, 6) } := by
  decide

/-- C10: the claim says the shift that brings the counter to N immediately
latches and resets it, so completed calls keep the counter below N; but the
counter update itself is the panic site: every shift_out dies before touching
the counter (leaving it exactly as it was), and set_bit_array on any
non-empty array dies in its first shift_out, so the claimed latch-and-reset
mechanism never executes and no shift_out or set_bit_array call completes. -/
theorem C10_shift_never_reaches_latch :
    ∀ (N : Nat) (b u v : Bool) (s : ShiftRegister N) (vs : List Bool),
      (∃ sd, ShiftRegister.shift_out N b u s = (OpResult.panicked sd, [Ev.shift b])
        ∧ sd.current_shifted_bit = s.current_shifted_bit)
      ∧ (∃ sd, (ShiftRegister.set_bit_array N (vs.concat v) s).1
          = OpResult.panicked sd) := by
  intro N b u v s vs
  constructor
  · exact ⟨_, rfl, rfl⟩
  · exact ⟨{ s with chain := (v :: s.chain).take N }, by
      simp [ShiftRegister.set_bit_array, shiftOutSeq, ShiftRegister.shift_out,
        List.reverse_concat]⟩
